import Mathlib

/-!
Shallow embedding of the GoveeBleLights device-update core
(custom_components/GoveeBleLights): the frame codec, the model catalog,
the color-payload builder, the per-device send loop, the controller task
queue, the connection-slot bookkeeping and the throttled notifier, with
theorems checking the specification's claims against them.
-/

namespace GoveeBleLights

/-! ## Enumerations (models.py) -/

namespace LedCommand

def POWER : Nat := 0x01
def BRIGHTNESS : Nat := 0x04
def COLOR : Nat := 0x05

end LedCommand

namespace LedMode

def MODE_2 : Nat := 0x02
def MODE_D : Nat := 0x0D
def MODE_1501 : Nat := 0x15
def MICROPHONE : Nat := 0x06
def SCENES : Nat := 0x05

end LedMode

namespace ControlMode

def COLOR : Nat := 0x01
def TEMPERATURE : Nat := 0x02

end ControlMode

/-! ## Frame codec (light.py `_send_bluetooth_data`, lines 653-690; the
identical framing also appears in govee_controller.py `_async_send_data`).
The Python builds `bytes([0x33, cmd & 0xFF]) + bytes(payload)`, pads with
zeros to 19 bytes, then appends the XOR checksum of those 19 bytes.
`bytes(payload)` raises `ValueError` when an element is outside 0..255,
and an explicit check raises when the payload exceeds 17 bytes. -/

def xorChecksum (frame : List Nat) : Nat :=
  frame.foldl (fun acc b => acc ^^^ b) 0

def send_bluetooth_data (cmd : Nat) (payload : List Nat) : Except String (List Nat) :=
  if payload.length > 17 then
    Except.error "Payload too long"
  else if payload.any (fun x => 255 < x) then
    Except.error "bytes must be in range 0..255"
  else
    let c := cmd % 256
    let frame := [0x33, c] ++ payload
    let frame := frame ++ List.replicate (19 - frame.length) 0
    let checksum := xorChecksum frame
    Except.ok (frame ++ [checksum % 256])

/-! ## Model catalog (models.py `ModelInfo`). The table maps a model name
to led mode, maximum brightness and the Kelvin range. `ModelInfo.get`
falls back to the `"default"` entry both when the model is unknown and
when the model's own value for the requested key is falsy (for these
integer-valued entries: equal to zero). -/

inductive ModelKey where
  | led_mode
  | brightness_max
  | min_kelvin
  | max_kelvin
deriving DecidableEq

def ModelEntry := ModelKey → Nat

def defaultEntry : ModelEntry := fun k =>
  match k with
  | .led_mode => LedMode.MODE_2
  | .brightness_max => 255
  | .min_kelvin => 1000
  | .max_kelvin => 6500

def entryH6008 : ModelEntry := fun k =>
  match k with
  | .led_mode => LedMode.MODE_D
  | .brightness_max => 100
  | .min_kelvin => 2700
  | .max_kelvin => 6500

def entryH6046 : ModelEntry := fun k =>
  match k with
  | .led_mode => LedMode.MODE_1501
  | .brightness_max => 100
  | .min_kelvin => 1500
  | .max_kelvin => 6500

def entryH6072 : ModelEntry := fun k =>
  match k with
  | .led_mode => LedMode.MODE_1501
  | .brightness_max => 100
  | .min_kelvin => 0
  | .max_kelvin => 0

def entryH6076 : ModelEntry := fun k =>
  match k with
  | .led_mode => LedMode.MODE_1501
  | .brightness_max => 100
  | .min_kelvin => 3300
  | .max_kelvin => 4300

def MODELS : List (String × ModelEntry) :=
  [("default", defaultEntry), ("H6008", entryH6008), ("H6046", entryH6046),
   ("H6072", entryH6072), ("H6076", entryH6076)]

def lookupModel (model : String) : Option ModelEntry :=
  (MODELS.find? (fun p => p.fst == model)).map Prod.snd

namespace ModelInfo

def get (model : String) (key : ModelKey) : Nat :=
  match lookupModel model with
  | some entry => if entry key ≠ 0 then entry key else defaultEntry key
  | none => defaultEntry key

end ModelInfo

/-! ## Helpers (light.py `clamp`, `is_in_range`) -/

def is_in_range (value min_value max_value : Nat) : Bool :=
  decide (min_value ≤ value) && decide (value ≤ max_value)

/-! ## Python integer operators on `Int`: `>>` is an arithmetic (floor)
shift and `& 0xFF` is reduction mod 256 in two's complement, which on
`Int` is the euclidean remainder. -/

def pyShr (x : Int) (n : Nat) : Int := Int.fdiv x (2 ^ n)

def pyAnd255 (x : Int) : Int := x % 256

/-! ## Color payload (light.py `_send_rgb_color`, lines 298-384).
For `LedMode.MODE_1501` the live code extends the payload with
`[0x01, R, G, B, (TK >> 8) & 0xFF, TK & 0xFF, WR, WG, WB,
(-1 >> 8) & 0xFF, -1 & 0xFF, 0]`; for the other modes with
`[R, G, B, (TK >> 8) & 0xFF, TK & 0xFF, WR, WG, WB]`. -/

def color_payload (led_mode R G B TK WR WG WB : Nat) : List Nat :=
  if led_mode = LedMode.MODE_1501 then
    [led_mode, 0x01, R, G, B, (TK >>> 8) &&& 0xFF, TK &&& 0xFF, WR, WG, WB,
     (pyAnd255 (pyShr (-1) 8)).toNat, (pyAnd255 (-1)).toNat, 0]
  else
    [led_mode, R, G, B, (TK >>> 8) &&& 0xFF, TK &&& 0xFF, WR, WG, WB]

/-- A Python return value of `_send_rgb_color`: `True`, `False`, or a
`ValueError` object returned (not raised) by the component validation;
`pyTruthy` is Python truthiness of that value (an exception object is
truthy). -/
inductive PyRes where
  | retTrue
  | retFalse
  | retValueError
deriving DecidableEq

def pyTruthy : PyRes → Bool
  | .retFalse => false
  | _ => true

structure ColorInput where
  model : String
  control_mode : Nat
  temperature : Nat
  temp_rgb : Int × Int × Int
deriving DecidableEq

/-- The effective `(R, G, B, TK)` after the temperature-mode override:
when the control mode is TEMPERATURE and the temperature lies in the
model's Kelvin range, the code overwrites `R = G = B = 0xFF` and sends
the raw Kelvin value; otherwise it keeps `_temp_rgb_color` and `TK = 0`. -/
def color_effective (ci : ColorInput) : Int × Int × Int × Nat :=
  if ci.control_mode = ControlMode.TEMPERATURE ∧
      is_in_range ci.temperature (ModelInfo.get ci.model .min_kelvin)
        (ModelInfo.get ci.model .max_kelvin) = true then
    (0xFF, 0xFF, 0xFF, ci.temperature)
  else
    (ci.temp_rgb.1, ci.temp_rgb.2.1, ci.temp_rgb.2.2, 0)

/-- Model of `_send_rgb_color`: validates each effective component as an
integer in 0..255 and RETURNS a `ValueError` object on violation, else
builds the payload, hands it to `_send_bluetooth_data` and reports the
write outcome (`writeOk` abstracts the BLE write succeeding). The second
component is the payload actually submitted for transmission, `none`
when no send was attempted. -/
def send_rgb_color (ci : ColorInput) (writeOk : Bool) : PyRes × Option (List Nat) :=
  let e := color_effective ci
  let R := e.1
  let G := e.2.1
  let B := e.2.2.1
  let TK := e.2.2.2
  if R < 0 ∨ 255 < R then (.retValueError, none)
  else if G < 0 ∨ 255 < G then (.retValueError, none)
  else if B < 0 ∨ 255 < B then (.retValueError, none)
  else
    let led_mode := ModelInfo.get ci.model .led_mode
    let payload := color_payload led_mode R.toNat G.toNat B.toNat TK 0 0 0
    match send_bluetooth_data LedCommand.COLOR payload with
    | .error _ => (.retFalse, none)
    | .ok _ => (if writeOk then .retTrue else .retFalse, some payload)

/-! ## Per-device send loop (light.py `_send_packets_thread`,
lines 469-579). One loop iteration, with the environment abstracted:
`powerOk`/`brightOk`/`writeOk` are the outcomes of the BLE writes,
`shouldClose` is `_should_close_stale_connection()` and `timeDue` is
`time.time() - _last_device_update >= 1`. -/

def DEVICE_PING_INTERVAL : Nat := 30

inductive Category where
  | power
  | brightness
  | color
deriving DecidableEq

structure DevState where
  dirty_state : Bool
  dirty_brightness : Bool
  dirty_color : Bool
  state : Bool
  temp_state : Bool
  brightness : Nat
  temp_brightness : Nat
  rgb : Int × Int × Int
  temp_rgb : Int × Int × Int
  control_mode : Nat
  temperature : Nat
  model : String
  ping_roll : Nat
deriving DecidableEq

def DevState.is_dirty (d : DevState) : Bool :=
  d.dirty_state || d.dirty_brightness || d.dirty_color

def DevState.colorInput (d : DevState) : ColorInput :=
  ⟨d.model, d.control_mode, d.temperature, d.temp_rgb⟩

structure IterOut where
  dev : DevState
  sends : List Category
  colorSubmitted : Option (List Nat)
  taskRunning : Bool
deriving DecidableEq

def iteration (d : DevState) (powerOk brightOk writeOk shouldClose timeDue : Bool) :
    IterOut :=
  if d.dirty_state then
    let d1 := {d with state := d.temp_state}
    if powerOk then ⟨{d1 with dirty_state := false}, [.power], none, true⟩
    else ⟨d1, [.power], none, true⟩
  else if d.dirty_brightness then
    let d1 := {d with brightness := d.temp_brightness}
    if brightOk then ⟨{d1 with dirty_brightness := false}, [.brightness], none, true⟩
    else ⟨d1, [.brightness], none, true⟩
  else if d.dirty_color then
    let d1 := {d with rgb := d.temp_rgb}
    let r := send_rgb_color d1.colorInput writeOk
    if pyTruthy r.1 then ⟨{d1 with dirty_color := false}, [.color], r.2, true⟩
    else ⟨d1, [.color], r.2, true⟩
  else
    if shouldClose then ⟨{d with ping_roll := 0}, [], none, false⟩
    else if timeDue then
      let pr := d.ping_roll + 1
      let d1 := {d with ping_roll := pr}
      if pr % (DEVICE_PING_INTERVAL * 3) = 0 ∨ d.state = false then
        ⟨d1, [.power], none, true⟩
      else if pr % (DEVICE_PING_INTERVAL * 3) = 1 then
        ⟨d1, [.brightness], none, true⟩
      else if pr % (DEVICE_PING_INTERVAL * 3) = 2 then
        let r := send_rgb_color d1.colorInput writeOk
        ⟨d1, [.color], r.2, true⟩
      else ⟨d1, [], none, true⟩
    else ⟨d, [], none, true⟩

/-- The category the dirty-servicing chain picks: `_dirty_state` first,
then `_dirty_brightness`, then `_dirty_color`. -/
def firstDirtyCategory (d : DevState) : Option Category :=
  if d.dirty_state then some .power
  else if d.dirty_brightness then some .brightness
  else if d.dirty_color then some .color
  else none

/-! ## Reconnect backoff (light.py `_send_packets_thread`, lines 485-498,
with the class constant `MAX_RECONNECT_ATTEMPTS = 0`). On a failed
connect the counter is incremented; past the ceiling the task stops and
the device is handled as unavailable; below it the loop sleeps
`0.9 + reconnect * uniform(0.1, 0.3)` seconds and retries. The jitter
draw is an input `u`. -/

def MAX_RECONNECT_ATTEMPTS : Nat := 0

/-- One connect-failure handling step: returns the backoff delay slept
before a retry (`none` when the device abandons instead), the new
counter, and whether the task stopped (degraded / unavailable). -/
def connect_failure (reconnect : Nat) (u : ℚ) : Option ℚ × Nat × Bool :=
  let r := reconnect + 1
  if MAX_RECONNECT_ATTEMPTS < r then (none, r, true)
  else (some (9 / 10 + r * u), r, false)

/-- A maximal run of consecutive connect failures with jitter draws
`us`, starting from counter `r` (the thread resets it to 0 on entry):
the list of backoff delays slept, and whether the run ended abandoned. -/
def backoff_run : Nat → List ℚ → List ℚ × Bool
  | _, [] => ([], false)
  | r, u :: us =>
    let f := connect_failure r u
    match f.1 with
    | none => ([], true)
    | some d =>
      let rest := backoff_run f.2.1 us
      (d :: rest.1, rest.2)

/-! ## Connection-slot bookkeeping (light.py module-level dictionaries
`queued_devices` / `active_devices` / `stale_devices` with
`MAX_ACTIVE_DEVICES = 1`, and the membership helpers in lines 389-442). -/

def MAX_ACTIVE_DEVICES : Nat := 1

structure PoolState where
  queued : Finset Nat
  active : Finset Nat
  stale : Finset Nat
  dirty : Finset Nat
deriving DecidableEq

def add_to_queue (d : Nat) (s : PoolState) : PoolState :=
  {s with active := s.active.erase d, stale := s.stale.erase d,
          queued := insert d s.queued}

def add_to_active (d : Nat) (s : PoolState) : PoolState :=
  {s with queued := s.queued.erase d, stale := s.stale.erase d,
          active := insert d s.active}

def add_to_stale (d : Nat) (s : PoolState) : PoolState :=
  {s with queued := s.queued.erase d, active := s.active.erase d,
          stale := insert d s.stale}

def remove_device_from_dicts (d : Nat) (s : PoolState) : PoolState :=
  {s with queued := s.queued.erase d, active := s.active.erase d,
          stale := s.stale.erase d}

/-- `_should_close_stale_connection` (lines 429-442): close when pings
are pending, when the client is gone, or when the pool is at or over
`MAX_ACTIVE_DEVICES`. -/
def should_close_stale_connection (ping_roll : Nat) (client_connected : Bool)
    (total_devices : Nat) : Bool :=
  if 0 < ping_roll then true
  else if !client_connected then true
  else if total_devices < MAX_ACTIVE_DEVICES then false
  else true

/-- The transitions `_send_packets_thread` performs on the shared
dictionaries, interleaved arbitrarily across devices (asyncio switches
at each await): `async_turn_on`/`off` mark a device dirty; a thread
entering its loop queues the device when it is neither active nor stale
(line 479); after a successful connect a dirty device is moved to active
with no capacity check (lines 502-503); an idle powered device goes
stale (line 546); a disconnect removes the device everywhere. -/
inductive PoolStep : PoolState → PoolState → Prop where
  | set_dirty (d : Nat) (s : PoolState) :
      PoolStep s {s with dirty := insert d s.dirty}
  | clear_dirty (d : Nat) (s : PoolState) :
      PoolStep s {s with dirty := s.dirty.erase d}
  | enter_thread (d : Nat) (s : PoolState) :
      d ∉ s.active → d ∉ s.stale → PoolStep s (add_to_queue d s)
  | connect_and_activate (d : Nat) (s : PoolState) :
      d ∈ s.dirty → PoolStep s (add_to_active d s)
  | go_stale (d : Nat) (s : PoolState) :
      d ∉ s.dirty → PoolStep s (add_to_stale d s)
  | disconnect (d : Nat) (s : PoolState) :
      PoolStep s (remove_device_from_dicts d s)

inductive PoolReachable : PoolState → Prop where
  | init : PoolReachable ⟨∅, ∅, ∅, ∅⟩
  | step {s t : PoolState} : PoolReachable s → PoolStep s t → PoolReachable t

/-! ## Controller task queue (govee_controller.py, lines 58-109).
`queue_update` takes the lock, inserts the light into
`_queued_or_processing_lights` when absent and schedules `_add_task`;
`_add_task` then takes the lock, RETURNS if the light is already in
`_queued_or_processing_lights`, and otherwise either queues the light or
starts `_async_process_light_update` as an active task.
`process_started` records the lights whose update task was created. -/

def PARALLEL_UPDATES : Nat := 3

structure CtrlState where
  queued_or_processing : Finset Nat
  task_queue : List Nat
  active_tasks : Nat
  process_started : List Nat
deriving DecidableEq

def add_task (s : CtrlState) (light : Nat) : CtrlState :=
  if light ∈ s.queued_or_processing then s
  else
    let s1 := {s with queued_or_processing := insert light s.queued_or_processing}
    if PARALLEL_UPDATES ≤ s1.active_tasks then
      {s1 with task_queue := s1.task_queue ++ [light]}
    else
      {s1 with active_tasks := s1.active_tasks + 1,
               process_started := s1.process_started ++ [light]}

/-- `queue_update` followed by the `_add_task` task it schedules (the
scheduled task runs after `queue_update` has already inserted the light
into `_queued_or_processing_lights`). -/
def queue_update (s : CtrlState) (light : Nat) : CtrlState :=
  if light ∉ s.queued_or_processing then
    add_task {s with queued_or_processing := insert light s.queued_or_processing} light
  else s

/-! ## Throttled notifier (throttled_updater.py). Times are rationals in
seconds; `manage_update` is modelled with an exact sleep: the callback
fires at `now + delay`. -/

def MIN_UPDATE_SECONDS : ℚ := 1

def MAX_UPDATE_SECONDS : ℚ := 60

def ADDITIONAL_DELAY_PER_UPDATE : ℚ := 1

structure UpdaterState where
  last_update : ℚ
  successive_updates : Nat
deriving DecidableEq

def calculate_delay (s : UpdaterState) (time_since_last_update : ℚ) : ℚ :=
  let update_delay :=
    MIN_UPDATE_SECONDS + s.successive_updates * ADDITIONAL_DELAY_PER_UPDATE
  let update_delay := min update_delay MAX_UPDATE_SECONDS
  max (update_delay - time_since_last_update) 0

structure ManageOut where
  st : UpdaterState
  wait : ℚ
  callback_invocations : Nat
deriving DecidableEq

def manage_update (s : UpdaterState) (now : ℚ) : ManageOut :=
  let time_since := now - s.last_update
  let update_delay := calculate_delay s time_since
  let fire_time := now + update_delay
  let successive :=
    if MAX_UPDATE_SECONDS ≤ fire_time - s.last_update then 0
    else s.successive_updates + 1
  ⟨⟨fire_time, successive⟩, update_delay, 1⟩

/-- The delay formula exactly as the specification words it:
`max(0, min(maxDelay, minDelay + successiveCount * perUpdatePenalty)
- timeSinceLastNotification)`. -/
def specNotifierDelay (minDelay maxDelay perUpdatePenalty : ℚ)
    (successiveCount : Nat) (timeSinceLast : ℚ) : ℚ :=
  max 0 (min maxDelay (minDelay + successiveCount * perUpdatePenalty) - timeSinceLast)

/-! Concrete device states used as test vectors. Field order:
dirty_state, dirty_brightness, dirty_color, state, temp_state,
brightness, temp_brightness, rgb, temp_rgb, control_mode, temperature,
model, ping_roll. -/

/-- All three flags dirty, power off, desired power on. -/
def allDirtyDev : DevState :=
  ⟨true, true, true, false, true, 128, 200, (0, 0, 0), (10, 20, 30),
    ControlMode.COLOR, 4000, "default", 0⟩

/-- Only the power flag dirty: power confirmed off, desired on. -/
def powerFailDev : DevState :=
  ⟨true, false, false, false, true, 255, 255, (0, 0, 0), (0, 0, 0),
    ControlMode.COLOR, 4000, "default", 0⟩

/-- Only the color flag dirty, with an out-of-range red component. -/
def badColorDev : DevState :=
  ⟨false, false, true, false, false, 255, 255, (0, 0, 0), (300, 0, 0),
    ControlMode.COLOR, 4000, "default", 0⟩

/-! Shared lemmas -/

lemma foldl_xor_lt (l : List Nat) :
    ∀ acc : Nat, acc < 2 ^ 8 → (∀ x ∈ l, x < 2 ^ 8) →
      l.foldl (fun a b => a ^^^ b) acc < 2 ^ 8 := by
  induction l with
  | nil => intro acc h _; simpa using h
  | cons x xs ih =>
    intro acc hacc hall
    simp only [List.foldl_cons]
    exact ih _ (Nat.bitwise_lt hacc (hall x (by simp)))
      (fun y hy => hall y (by simp [hy]))

lemma xorChecksum_lt (l : List Nat) (h : ∀ x ∈ l, x < 256) : xorChecksum l < 256 := by
  have h8 : ∀ x ∈ l, x < 2 ^ 8 := by intro x hx; have := h x hx; omega
  have := foldl_xor_lt l 0 (by norm_num) h8
  unfold xorChecksum
  omega

lemma getD_replicate_zero (r n : Nat) : (List.replicate r (0 : Nat)).getD n 0 = 0 := by
  simp [List.getD_eq_getD_get?, List.get?_eq_getElem?]

/-- On a valid payload, `_send_bluetooth_data` builds exactly the
frame `[0x33, cmd % 256] ++ payload ++ zeros ++ [checksum]`. -/
lemma send_bluetooth_data_ok (cmd : Nat) (payload : List Nat)
    (hlen : payload.length ≤ 17) (hbytes : ∀ x ∈ payload, x ≤ 255) :
    send_bluetooth_data cmd payload =
      Except.ok
        (([0x33, cmd % 256] ++ payload ++ List.replicate (17 - payload.length) 0) ++
          [xorChecksum
            ([0x33, cmd % 256] ++ payload ++ List.replicate (17 - payload.length) 0) % 256]) := by
  unfold send_bluetooth_data
  rw [if_neg (by omega)]
  rw [if_neg (by simp only [List.any_eq_true, not_exists, not_and, decide_eq_true_eq]
                 intro x hx
                 have := hbytes x hx
                 omega)]
  have hc : (19 : Nat) - ([0x33, cmd % 256] ++ payload).length = 17 - payload.length := by
    simp [List.length_append]
  dsimp only
  rw [hc]

/-- C1: for every command byte and every payload of length at most 17
whose elements are in 0..255, the frame encoder returns exactly 20
bytes: byte 0 is `0x33`, byte 1 is the command masked to its low 8 bits,
bytes 2 onward are the payload followed by zero padding through byte 18,
and byte 19 is the XOR of bytes 0-18; for every longer payload it fails
with a validation error before any transmission. -/
theorem frame_codec_spec :
    (∀ (cmd : Nat) (payload : List Nat), payload.length ≤ 17 →
      (∀ x ∈ payload, x ≤ 255) →
      ∃ frame : List Nat,
        send_bluetooth_data cmd payload = Except.ok frame ∧
        frame.length = 20 ∧
        frame.getD 0 0 = 0x33 ∧
        frame.getD 1 0 = cmd % 256 ∧
        (∀ i < payload.length, frame.getD (2 + i) 0 = payload.getD i 0) ∧
        (∀ i, payload.length ≤ i → i < 17 → frame.getD (2 + i) 0 = 0) ∧
        frame.getD 19 0 = xorChecksum (frame.take 19)) ∧
    (∀ (cmd : Nat) (payload : List Nat), 17 < payload.length →
      send_bluetooth_data cmd payload = Except.error "Payload too long") := by
  constructor
  · intro cmd payload hlen hbytes
    refine ⟨_, send_bluetooth_data_ok cmd payload hlen hbytes, ?_, ?_, ?_, ?_, ?_, ?_⟩
    · simp [List.length_append]
      omega
    · rw [List.append_assoc, List.append_assoc, List.cons_append, List.cons_append,
        List.nil_append, List.getD_cons_zero]
    · rw [List.append_assoc, List.append_assoc, List.cons_append, List.cons_append,
        List.nil_append, List.getD_cons_succ, List.getD_cons_zero]
    · intro i hi
      rw [List.append_assoc, List.append_assoc, List.cons_append, List.cons_append,
        List.nil_append, Nat.add_comm 2 i, List.getD_cons_succ, List.getD_cons_succ,
        List.getD_append _ _ _ _ hi]
    · intro i hge hlt
      rw [List.append_assoc, List.append_assoc, List.cons_append, List.cons_append,
        List.nil_append, Nat.add_comm 2 i, List.getD_cons_succ, List.getD_cons_succ,
        List.getD_append_right _ _ _ _ hge,
        List.getD_append _ _ _ _ (by simp [List.length_replicate]; omega),
        getD_replicate_zero]
    · have hL19 : ([0x33, cmd % 256] ++ payload ++ List.replicate (17 - payload.length) 0).length
          = 19 := by
        simp [List.length_append]
        omega
      have hlt256 : xorChecksum
          ([0x33, cmd % 256] ++ payload ++ List.replicate (17 - payload.length) 0) < 256 := by
        apply xorChecksum_lt
        intro x hx
        simp only [List.mem_append, List.mem_cons, List.not_mem_nil, or_false,
          List.mem_replicate] at hx
        rcases hx with (h | h) | h
        · rcases h with h | h
          · omega
          · have : cmd % 256 < 256 := Nat.mod_lt _ (by norm_num)
            omega
        · have := hbytes x h
          omega
        · omega
      rw [List.getD_append_right _ _ _ _ (by rw [hL19]), List.take_left' hL19, hL19,
        Nat.sub_self, List.getD_cons_zero]
      exact Nat.mod_eq_of_lt hlt256
  · intro cmd payload h
    unfold send_bluetooth_data
    rw [if_pos (by omega)]

/-- C1 witness: the spec's own example `encode(0x01, [0x01])`, plus an
18-byte payload rejected as too long. -/
theorem frame_codec_spec_witness :
    (∃ frame : List Nat,
      send_bluetooth_data 1 [1] = Except.ok frame ∧
      frame.length = 20 ∧
      frame.getD 0 0 = 0x33 ∧
      frame.getD 1 0 = 1 % 256 ∧
      (∀ i < ([1] : List Nat).length, frame.getD (2 + i) 0 = ([1] : List Nat).getD i 0) ∧
      (∀ i, ([1] : List Nat).length ≤ i → i < 17 → frame.getD (2 + i) 0 = 0) ∧
      frame.getD 19 0 = xorChecksum (frame.take 19)) ∧
    send_bluetooth_data 5 (List.replicate 18 0) = Except.error "Payload too long" :=
  ⟨frame_codec_spec.1 1 [1] (by decide) (by decide),
   frame_codec_spec.2 5 (List.replicate 18 0) (by decide)⟩

/-- C10: for every known model whose catalog entry holds a falsy (zero)
value for the requested key, `ModelInfo.get` returns the `"default"`
entry's value instead; in particular H6072, whose entry declares
`min_kelvin = 0` and `max_kelvin = 0`, is reported with the default
range 1000-6500 K, and that range is what the color path's in-range
check uses to decide whether the temperature is sent as raw Kelvin. -/
theorem model_get_falsy_fallback :
    (∀ (model : String) (entry : ModelEntry) (key : ModelKey),
      lookupModel model = some entry → entry key = 0 →
      ModelInfo.get model key = defaultEntry key) ∧
    ModelInfo.get "H6072" ModelKey.min_kelvin = 1000 ∧
    ModelInfo.get "H6072" ModelKey.max_kelvin = 6500 ∧
    (∀ (t : Nat) (rgb : Int × Int × Int),
      color_effective ⟨"H6072", ControlMode.TEMPERATURE, t, rgb⟩ =
        if 1000 ≤ t ∧ t ≤ 6500 then (0xFF, 0xFF, 0xFF, t)
        else (rgb.1, rgb.2.1, rgb.2.2, 0)) := by
  refine ⟨?_, rfl, rfl, ?_⟩
  · intro model entry key hfind h0
    unfold ModelInfo.get
    rw [hfind]
    simp [h0]
  · intro t rgb
    unfold color_effective
    try dsimp only
    have hrange : (is_in_range t (ModelInfo.get "H6072" ModelKey.min_kelvin)
        (ModelInfo.get "H6072" ModelKey.max_kelvin) = true) ↔ (1000 ≤ t ∧ t ≤ 6500) := by
      show is_in_range t 1000 6500 = true ↔ _
      simp [is_in_range]
    by_cases h : 1000 ≤ t ∧ t ≤ 6500
    · rw [if_pos ⟨rfl, hrange.mpr h⟩, if_pos h]
    · rw [if_neg (fun hc => h (hrange.mp hc.2)), if_neg h]

/-- C10 witness: H6072's own entry is found, holds `min_kelvin = 0`, and
`ModelInfo.get` reports the default value for it. -/
theorem model_get_falsy_fallback_witness :
    lookupModel "H6072" = some entryH6072 ∧
    entryH6072 ModelKey.min_kelvin = 0 ∧
    ModelInfo.get "H6072" ModelKey.min_kelvin = defaultEntry ModelKey.min_kelvin :=
  ⟨rfl, rfl, model_get_falsy_fallback.1 "H6072" entryH6072 ModelKey.min_kelvin rfl rfl⟩

/-- C8: the scheduled notification waits exactly
`max(0, min(maxDelay, minDelay + successiveCount * perUpdatePenalty)
- timeSinceLastNotification)`, invokes the callback exactly once, resets
the elapsed-time clock, and `successive_updates` resets to zero exactly
when a gap of at least `maxDelay` has elapsed since the previous
notification and increments otherwise. -/
theorem throttled_notifier_delay_spec :
    (∀ (s : UpdaterState) (t : ℚ),
      calculate_delay s t =
        specNotifierDelay MIN_UPDATE_SECONDS MAX_UPDATE_SECONDS
          ADDITIONAL_DELAY_PER_UPDATE s.successive_updates t) ∧
    (∀ (s : UpdaterState) (now : ℚ),
      (manage_update s now).wait =
        max 0 (min MAX_UPDATE_SECONDS
          (MIN_UPDATE_SECONDS + s.successive_updates * ADDITIONAL_DELAY_PER_UPDATE) -
            (now - s.last_update)) ∧
      (manage_update s now).callback_invocations = 1 ∧
      (manage_update s now).st.last_update = now + (manage_update s now).wait ∧
      ((manage_update s now).st.successive_updates = 0 ↔
        MAX_UPDATE_SECONDS ≤ now + (manage_update s now).wait - s.last_update) ∧
      (¬ MAX_UPDATE_SECONDS ≤ now + (manage_update s now).wait - s.last_update →
        (manage_update s now).st.successive_updates = s.successive_updates + 1)) := by
  have hcd : ∀ (s : UpdaterState) (t : ℚ),
      calculate_delay s t =
        specNotifierDelay MIN_UPDATE_SECONDS MAX_UPDATE_SECONDS
          ADDITIONAL_DELAY_PER_UPDATE s.successive_updates t := by
    intro s t
    unfold calculate_delay specNotifierDelay
    rw [min_comm, max_comm]
  refine ⟨hcd, ?_⟩
  intro s now
  have hsucc : (manage_update s now).st.successive_updates =
      (if MAX_UPDATE_SECONDS ≤ now + (manage_update s now).wait - s.last_update then 0
       else s.successive_updates + 1) := rfl
  refine ⟨?_, rfl, rfl, ?_, ?_⟩
  · show calculate_delay s (now - s.last_update) = _
    rw [hcd]
    rfl
  · rw [hsucc]
    by_cases h : MAX_UPDATE_SECONDS ≤ now + (manage_update s now).wait - s.last_update
    · simp [h]
    · simp [h]
  · intro h
    rw [hsucc, if_neg h]

/-- C8 witness: from a quiet state the first notification waits the
minimum delay of one second and records one successive update. -/
theorem throttled_notifier_delay_spec_witness :
    (manage_update ⟨0, 0⟩ 0).wait = 1 ∧
    (manage_update ⟨0, 0⟩ 0).st.successive_updates = 0 + 1 := by
  have h := throttled_notifier_delay_spec.2 ⟨0, 0⟩ 0
  have hw : (manage_update ⟨0, 0⟩ 0).wait = 1 := by
    rw [h.1]
    norm_num [MIN_UPDATE_SECONDS, MAX_UPDATE_SECONDS, ADDITIONAL_DELAY_PER_UPDATE]
  exact ⟨hw, h.2.2.2.2 (by rw [hw]; norm_num [MAX_UPDATE_SECONDS])⟩

/-- C7: with the configured ceiling `MAX_RECONNECT_ATTEMPTS = 0` every
failed connect attempt immediately exceeds the ceiling: the handler
emits no backoff delay and stops the task (degraded, no further
retries), so across any run of failures the emitted delay list is empty
and in particular non-decreasing. -/
theorem reconnect_backoff_until_ceiling :
    (∀ (r : Nat) (u : ℚ), connect_failure r u = (none, r + 1, true)) ∧
    (∀ us : List ℚ,
      List.Chain' (· ≤ ·) (backoff_run 0 us).1 ∧
      (backoff_run 0 us).1 = [] ∧
      (us ≠ [] → (backoff_run 0 us).2 = true)) := by
  have hcf : ∀ (r : Nat) (u : ℚ), connect_failure r u = (none, r + 1, true) := by
    intro r u
    unfold connect_failure MAX_RECONNECT_ATTEMPTS
    rw [if_pos (by omega)]
  refine ⟨hcf, ?_⟩
  intro us
  cases us with
  | nil => exact ⟨List.chain'_nil, rfl, fun h => absurd rfl h⟩
  | cons u us =>
    have hrun : backoff_run 0 (u :: us) = ([], true) := by
      simp [backoff_run, hcf 0 u]
    rw [hrun]
    exact ⟨List.chain'_nil, rfl, fun _ => rfl⟩

/-- C7 witness: a single failed attempt with jitter draw 1/5 abandons
immediately with no backoff delay. -/
theorem reconnect_backoff_until_ceiling_witness :
    (backoff_run 0 [1 / 5]).1 = [] ∧ (backoff_run 0 [1 / 5]).2 = true :=
  ⟨(reconnect_backoff_until_ceiling.2 [1 / 5]).2.1,
   (reconnect_backoff_until_ceiling.2 [1 / 5]).2.2 (by simp)⟩

/-- The dirty-power branch of one loop iteration, characterized. -/
lemma iteration_power_branch (d : DevState) (p b w sc td : Bool)
    (h : d.dirty_state = true) :
    iteration d p b w sc td =
      if p then
        ⟨{d with state := d.temp_state, dirty_state := false}, [.power], none, true⟩
      else ⟨{d with state := d.temp_state}, [.power], none, true⟩ := by
  unfold iteration
  rw [if_pos h]

/-- The dirty-brightness branch of one loop iteration, characterized. -/
lemma iteration_brightness_branch (d : DevState) (p b w sc td : Bool)
    (h1 : d.dirty_state = false) (h2 : d.dirty_brightness = true) :
    iteration d p b w sc td =
      if b then
        ⟨{d with brightness := d.temp_brightness, dirty_brightness := false},
          [.brightness], none, true⟩
      else ⟨{d with brightness := d.temp_brightness}, [.brightness], none, true⟩ := by
  unfold iteration
  rw [if_neg (by simp [h1]), if_pos h2]

/-- The dirty-color branch of one loop iteration, characterized. -/
lemma iteration_color_branch (d : DevState) (p b w sc td : Bool)
    (h1 : d.dirty_state = false) (h2 : d.dirty_brightness = false)
    (h3 : d.dirty_color = true) :
    iteration d p b w sc td =
      if pyTruthy (send_rgb_color d.colorInput w).1 then
        ⟨{d with rgb := d.temp_rgb, dirty_color := false}, [.color],
          (send_rgb_color d.colorInput w).2, true⟩
      else
        ⟨{d with rgb := d.temp_rgb}, [.color],
          (send_rgb_color d.colorInput w).2, true⟩ := by
  unfold iteration
  rw [if_neg (by simp [h1]), if_neg (by simp [h2]), if_pos h3]
  rfl

/-- C5: every loop iteration sends at most one command category; when
all three flags are dirty the category sent is power; the serviced
category is always the first dirty one in the fixed order power,
brightness, color. -/
theorem priority_order_per_iteration :
    ∀ (d : DevState) (powerOk brightOk writeOk shouldClose timeDue : Bool),
      (iteration d powerOk brightOk writeOk shouldClose timeDue).sends.length ≤ 1 ∧
      (d.dirty_state = true ∧ d.dirty_brightness = true ∧ d.dirty_color = true →
        (iteration d powerOk brightOk writeOk shouldClose timeDue).sends =
          [Category.power]) ∧
      (d.dirty_state = true →
        (iteration d powerOk brightOk writeOk shouldClose timeDue).sends =
          [Category.power]) ∧
      (d.dirty_state = false → d.dirty_brightness = true →
        (iteration d powerOk brightOk writeOk shouldClose timeDue).sends =
          [Category.brightness]) ∧
      (d.dirty_state = false → d.dirty_brightness = false → d.dirty_color = true →
        (iteration d powerOk brightOk writeOk shouldClose timeDue).sends =
          [Category.color]) := by
  intro d p b w sc td
  refine ⟨?_, ?_, ?_, ?_, ?_⟩
  · by_cases hds : d.dirty_state = true
    · rw [iteration_power_branch d p b w sc td hds]
      cases p <;> simp
    · have hds' : d.dirty_state = false := by simpa using hds
      by_cases hdb : d.dirty_brightness = true
      · rw [iteration_brightness_branch d p b w sc td hds' hdb]
        cases b <;> simp
      · have hdb' : d.dirty_brightness = false := by simpa using hdb
        by_cases hdc : d.dirty_color = true
        · rw [iteration_color_branch d p b w sc td hds' hdb' hdc]
          split_ifs <;> simp
        · have hdc' : d.dirty_color = false := by simpa using hdc
          unfold iteration
          rw [if_neg (by simp [hds']), if_neg (by simp [hdb']), if_neg (by simp [hdc'])]
          try dsimp only
          split_ifs <;> simp
  · intro h
    rw [iteration_power_branch d p b w sc td h.1]
    cases p <;> rfl
  · intro h
    rw [iteration_power_branch d p b w sc td h]
    cases p <;> rfl
  · intro h1 h2
    rw [iteration_brightness_branch d p b w sc td h1 h2]
    cases b <;> rfl
  · intro h1 h2 h3
    rw [iteration_color_branch d p b w sc td h1 h2 h3]
    split_ifs <;> rfl

/-- C5 witness: with all three categories dirty, the iteration's single
send is the power packet. -/
theorem priority_order_per_iteration_witness :
    (iteration allDirtyDev true true true false false).sends = [Category.power] :=
  (priority_order_per_iteration allDirtyDev true true true false false).2.1
    ⟨rfl, rfl, rfl⟩

/-- C4 counterexample: with only the power flag dirty and the power
send failing, the iteration keeps the dirty flag set (so it retries)
but has ALREADY overwritten the confirmed power attribute with the
desired value, contradicting the claim that last-confirmed attributes
are updated only after the corresponding send succeeds. -/
theorem confirmed_state_updated_before_send :
    powerFailDev.state = false ∧
    (iteration powerFailDev false true true false false).dev.dirty_state = true ∧
    (iteration powerFailDev false true true false false).dev.state = true :=
  ⟨rfl, rfl, rfl⟩

/-- C4 amended: on a dirty-servicing iteration the desired value is
copied into the confirmed attribute before the send is attempted (so it
is updated even when the send fails); the dirty flag being serviced
remains set on failure, and on success exactly that one dirty flag is
cleared. -/
theorem dirty_flag_retry_semantics :
    ∀ (d : DevState) (p b w sc td : Bool),
      (d.dirty_state = true →
        (iteration d p b w sc td).dev.state = d.temp_state ∧
        (p = false → (iteration d p b w sc td).dev.dirty_state = true) ∧
        (p = true → (iteration d p b w sc td).dev.dirty_state = false) ∧
        (iteration d p b w sc td).dev.dirty_brightness = d.dirty_brightness ∧
        (iteration d p b w sc td).dev.dirty_color = d.dirty_color) ∧
      (d.dirty_state = false → d.dirty_brightness = true →
        (iteration d p b w sc td).dev.brightness = d.temp_brightness ∧
        (b = false → (iteration d p b w sc td).dev.dirty_brightness = true) ∧
        (b = true → (iteration d p b w sc td).dev.dirty_brightness = false) ∧
        (iteration d p b w sc td).dev.dirty_state = false ∧
        (iteration d p b w sc td).dev.dirty_color = d.dirty_color) ∧
      (d.dirty_state = false → d.dirty_brightness = false → d.dirty_color = true →
        (iteration d p b w sc td).dev.rgb = d.temp_rgb ∧
        (pyTruthy (send_rgb_color d.colorInput w).1 = false →
          (iteration d p b w sc td).dev.dirty_color = true) ∧
        (pyTruthy (send_rgb_color d.colorInput w).1 = true →
          (iteration d p b w sc td).dev.dirty_color = false) ∧
        (iteration d p b w sc td).dev.dirty_state = false ∧
        (iteration d p b w sc td).dev.dirty_brightness = false) := by
  intro d p b w sc td
  refine ⟨?_, ?_, ?_⟩
  · intro h
    rw [iteration_power_branch d p b w sc td h]
    refine ⟨?_, ?_, ?_, ?_, ?_⟩
    · cases p <;> rfl
    · intro hp
      subst hp
      exact h
    · intro hp
      subst hp
      rfl
    · cases p <;> rfl
    · cases p <;> rfl
  · intro h1 h2
    rw [iteration_brightness_branch d p b w sc td h1 h2]
    refine ⟨?_, ?_, ?_, ?_, ?_⟩
    · cases b <;> rfl
    · intro hb
      subst hb
      exact h2
    · intro hb
      subst hb
      rfl
    · cases b <;> exact h1
    · cases b <;> rfl
  · intro h1 h2 h3
    rw [iteration_color_branch d p b w sc td h1 h2 h3]
    refine ⟨?_, ?_, ?_, ?_, ?_⟩
    · split_ifs <;> rfl
    · intro hw
      rw [if_neg (by rw [hw]; exact Bool.false_ne_true)]
      exact h3
    · intro hw
      rw [if_pos hw]
    · split_ifs <;> exact h1
    · split_ifs <;> exact h2

/-- C4 witness: with only the power flag dirty and a successful power
send, the confirmed power becomes the desired power and exactly the
power flag is cleared. -/
theorem dirty_flag_retry_semantics_witness :
    (iteration powerFailDev true true true false false).dev.state = true ∧
    (iteration powerFailDev true true true false false).dev.dirty_state = false := by
  have h := (dirty_flag_retry_semantics powerFailDev true true true false false).1 rfl
  exact ⟨h.1, h.2.2.1 rfl⟩

/-- C9: when some effective color component is out of 0..255 (and the
temperature override does not apply), `_send_rgb_color` RETURNS a
`ValueError` object instead of raising it; that object is truthy, so
the send loop treats the send as successful and clears the color dirty
flag even though no payload was submitted for transmission. -/
theorem value_error_treated_as_success :
    ∀ (d : DevState) (p b w sc td : Bool),
      d.dirty_state = false → d.dirty_brightness = false → d.dirty_color = true →
      (¬ (d.control_mode = ControlMode.TEMPERATURE ∧
        is_in_range d.temperature (ModelInfo.get d.model ModelKey.min_kelvin)
          (ModelInfo.get d.model ModelKey.max_kelvin) = true)) →
      (d.temp_rgb.1 < 0 ∨ 255 < d.temp_rgb.1 ∨ d.temp_rgb.2.1 < 0 ∨
        255 < d.temp_rgb.2.1 ∨ d.temp_rgb.2.2 < 0 ∨ 255 < d.temp_rgb.2.2) →
      send_rgb_color d.colorInput w = (PyRes.retValueError, none) ∧
      pyTruthy PyRes.retValueError = true ∧
      (iteration d p b w sc td).dev.dirty_color = false ∧
      (iteration d p b w sc td).colorSubmitted = none := by
  intro d p b w sc td h1 h2 h3 hno hbad
  have he : color_effective d.colorInput =
      (d.temp_rgb.1, d.temp_rgb.2.1, d.temp_rgb.2.2, 0) := by
    unfold color_effective
    dsimp only [DevState.colorInput]
    rw [if_neg hno]
  have hres : send_rgb_color d.colorInput w = (PyRes.retValueError, none) := by
    unfold send_rgb_color
    rw [he]
    try dsimp only
    by_cases hR : d.temp_rgb.1 < 0 ∨ 255 < d.temp_rgb.1
    · rw [if_pos hR]
    · by_cases hG : d.temp_rgb.2.1 < 0 ∨ 255 < d.temp_rgb.2.1
      · rw [if_neg hR, if_pos hG]
      · have hB : d.temp_rgb.2.2 < 0 ∨ 255 < d.temp_rgb.2.2 := by tauto
        rw [if_neg hR, if_neg hG, if_pos hB]
  refine ⟨hres, rfl, ?_, ?_⟩
  · rw [iteration_color_branch d p b w sc td h1 h2 h3, hres]
    rfl
  · rw [iteration_color_branch d p b w sc td h1 h2 h3, hres]
    rfl

/-- C9 witness: red component 300 makes `_send_rgb_color` return a
truthy `ValueError` object and the loop clears the color dirty flag
with nothing submitted. -/
theorem value_error_treated_as_success_witness :
    send_rgb_color badColorDev.colorInput true = (PyRes.retValueError, none) ∧
    (iteration badColorDev true true true false false).dev.dirty_color = false ∧
    (iteration badColorDev true true true false false).colorSubmitted = none := by
  have h := value_error_treated_as_success badColorDev true true true false false
    rfl rfl rfl (by decide) (by decide)
  exact ⟨h.1, h.2.2.1, h.2.2.2⟩

/-- C2 counterexample: two devices both marked dirty each enter their
send loop, queue themselves and move to active after connecting; no
capacity check guards `_add_to_active`, so a reachable state has
`|active| + |stale| = 2 > 1 = MAX_ACTIVE_DEVICES`, and device 1 moved
from queued to active while the bound was already saturated and nothing
was evicted. -/
theorem capacity_invariant_violated :
    ∃ s : PoolState, PoolReachable s ∧
      MAX_ACTIVE_DEVICES < s.active.card + s.stale.card :=
  ⟨_,
    PoolReachable.step
      (PoolReachable.step
        (PoolReachable.step
          (PoolReachable.step
            (PoolReachable.step
              (PoolReachable.step PoolReachable.init (PoolStep.set_dirty 0 _))
              (PoolStep.set_dirty 1 _))
            (PoolStep.enter_thread 0 _ (by decide) (by decide)))
          (PoolStep.enter_thread 1 _ (by decide) (by decide)))
        (PoolStep.connect_and_activate 0 _ (by decide)))
      (PoolStep.connect_and_activate 1 _ (by decide)),
    by decide⟩

/-- For every n a reachable pool state has n devices all dirty and all
active: each device is marked dirty and activated in turn, and nothing
checks a capacity on the way. -/
lemma reachable_all_active (n : Nat) :
    ∃ s : PoolState, PoolReachable s ∧ s.queued = ∅ ∧ s.active = Finset.range n ∧
      s.stale = ∅ ∧ s.dirty = Finset.range n := by
  induction n with
  | zero =>
    exact ⟨⟨∅, ∅, ∅, ∅⟩, PoolReachable.init, rfl, by simp, rfl, by simp⟩
  | succ n ih =>
    obtain ⟨s, hr, hq, ha, hs, hd⟩ := ih
    refine ⟨add_to_active n {s with dirty := insert n s.dirty}, ?_, ?_, ?_, ?_, ?_⟩
    · exact PoolReachable.step (PoolReachable.step hr (PoolStep.set_dirty n s))
        (PoolStep.connect_and_activate n _ (Finset.mem_insert_self n s.dirty))
    · simp [add_to_active, hq]
    · simp [add_to_active, ha, Finset.range_succ]
    · simp [add_to_active, hs]
    · simp [add_to_active, hd, Finset.range_succ]

/-- C2 amended: a device does not wait for the capacity bound or for an
eviction to move from queued to active: from every pool state, every
dirty device may take the `_add_to_active` transition, which inserts it
into the active set with no capacity precondition and evicts nothing;
consequently reachable states exist with any number of simultaneously
active devices, and `|active| + |stale| <= MAX_ACTIVE_DEVICES` is not
an invariant. -/
theorem pool_admission_unchecked :
    (∀ (s : PoolState) (d : Nat), d ∈ s.dirty → PoolStep s (add_to_active d s)) ∧
    (∀ n : Nat, ∃ s : PoolState, PoolReachable s ∧
      s.active.card + s.stale.card = n) := by
  constructor
  · intro s d h
    exact PoolStep.connect_and_activate d s h
  · intro n
    obtain ⟨s, hr, _, ha, hs, _⟩ := reachable_all_active n
    refine ⟨s, hr, ?_⟩
    rw [ha, hs]
    simp

/-- C2 witness: a single dirty device in an otherwise empty pool may be
activated, and a reachable state holds 2 connected devices, twice the
configured capacity. -/
theorem pool_admission_unchecked_witness :
    PoolStep ⟨∅, ∅, ∅, {0}⟩ (add_to_active 0 ⟨∅, ∅, ∅, {0}⟩) ∧
    (∃ s : PoolState, PoolReachable s ∧ s.active.card + s.stale.card = 2) :=
  ⟨pool_admission_unchecked.1 ⟨∅, ∅, ∅, {0}⟩ 0 (by decide),
   pool_admission_unchecked.2 2⟩

/-- C3 (code bug): `queue_update` inserts the light into
`_queued_or_processing_lights` and schedules `_add_task`, which then
finds the light already in that set and returns; no update task is ever
created or queued, so the run never executes. The idempotence half of
the claim does hold: a repeated request is a no-op. -/
theorem queue_update_never_starts_run :
    ∀ (s : CtrlState) (light : Nat),
      (queue_update s light).process_started = s.process_started ∧
      (queue_update s light).task_queue = s.task_queue ∧
      (queue_update s light).active_tasks = s.active_tasks ∧
      (light ∈ s.queued_or_processing → queue_update s light = s) ∧
      (light ∉ s.queued_or_processing →
        (queue_update s light).queued_or_processing =
          insert light s.queued_or_processing) := by
  intro s light
  by_cases h : light ∈ s.queued_or_processing
  · have hq : queue_update s light = s := by
      unfold queue_update
      rw [if_neg (by simpa using h)]
    rw [hq]
    exact ⟨rfl, rfl, rfl, fun _ => rfl, fun h' => absurd h h'⟩
  · have hq : queue_update s light =
        {s with queued_or_processing := insert light s.queued_or_processing} := by
      unfold queue_update
      rw [if_pos h]
      unfold add_task
      rw [if_pos (Finset.mem_insert_self light s.queued_or_processing)]
    rw [hq]
    exact ⟨rfl, rfl, rfl, fun h' => absurd h' h, fun _ => rfl⟩

/-- C3 witness: the very first request on a fresh controller records the
light as queued-or-processing yet starts and queues nothing. -/
theorem queue_update_never_starts_run_witness :
    (queue_update ⟨∅, [], 0, []⟩ 0).process_started = ([] : List Nat) ∧
    (queue_update ⟨∅, [], 0, []⟩ 0).task_queue = ([] : List Nat) ∧
    (queue_update ⟨∅, [], 0, []⟩ 0).queued_or_processing = insert 0 (∅ : Finset Nat) := by
  have h := queue_update_never_starts_run ⟨∅, [], 0, []⟩ 0
  exact ⟨h.1, h.2.1, h.2.2.2.2 (by decide)⟩

/-- C6 counterexample: in the extended MODE_1501 layout the live code
appends `(-1 >> 8) & 0xFF, -1 & 0xFF, 0` — that is `0xFF, 0xFF, 0x00` —
so the payload has 12 bytes after the mode byte (13 in total), not the
claimed 11 ending in `0xFF, 0x74`. -/
theorem mode_1501_payload_not_as_claimed :
    color_payload LedMode.MODE_1501 1 2 3 0 0 0 0 ≠
      [LedMode.MODE_1501, 0x01, 1, 2, 3, 0, 0, 0, 0, 0, 0xFF, 0x74] ∧
    (color_payload LedMode.MODE_1501 1 2 3 0 0 0 0).length = 13 := by
  constructor
  · decide
  · decide

/-- C6 amended: for MODE_1501 the payload is exactly
`[ledMode, 0x01, R, G, B, KelvinHigh, KelvinLow, 0, 0, 0, 0xFF, 0xFF, 0x00]`
(12 bytes after the mode byte); for every other led mode it is exactly
`[ledMode, R, G, B, KelvinHigh, KelvinLow, 0, 0, 0]`. -/
theorem color_payload_shape :
    ∀ (R G B TK : Nat),
      color_payload LedMode.MODE_1501 R G B TK 0 0 0 =
        [LedMode.MODE_1501, 0x01, R, G, B, (TK >>> 8) &&& 0xFF, TK &&& 0xFF,
          0, 0, 0, 0xFF, 0xFF, 0x00] ∧
      (∀ led_mode : Nat, led_mode ≠ LedMode.MODE_1501 →
        color_payload led_mode R G B TK 0 0 0 =
          [led_mode, R, G, B, (TK >>> 8) &&& 0xFF, TK &&& 0xFF, 0, 0, 0]) := by
  intro R G B TK
  constructor
  · unfold color_payload
    rw [if_pos rfl, show (pyAnd255 (pyShr (-1) 8)).toNat = 255 by decide,
      show (pyAnd255 (-1)).toNat = 255 by decide]
  · intro lm h
    unfold color_payload
    rw [if_neg h]

/-- C6 witness: concrete payloads for a MODE_D and a MODE_1501 device at
RGB (10, 20, 30) and 4000 K. -/
theorem color_payload_shape_witness :
    color_payload LedMode.MODE_D 10 20 30 4000 0 0 0 =
      [LedMode.MODE_D, 10, 20, 30, 15, 160, 0, 0, 0] ∧
    color_payload LedMode.MODE_1501 10 20 30 4000 0 0 0 =
      [LedMode.MODE_1501, 0x01, 10, 20, 30, 15, 160, 0, 0, 0, 0xFF, 0xFF, 0x00] := by
  constructor
  · rw [(color_payload_shape 10 20 30 4000).2 LedMode.MODE_D (by decide)]
    decide
  · rw [(color_payload_shape 10 20 30 4000).1]
    decide

end GoveeBleLights
